import Mathlib

/-
  Verification of the 2D platformer simulation core.

  The repository contains several near-identical variants of the same game
  (main.py, game_enhanced.py, game_full.py, game_ultra.py, game_final.py).
  Each definition below is a shallow embedding of a specific function of a
  specific variant; the source file and line range are named in the doc
  comment.  Conventions:
  - pygame rectangles store integer coordinates; assigning a float to a
    rect attribute truncates toward zero (Python int conversion).  We model
    positions as integers and velocities as exact rationals (all velocity
    constants of the variants under proof are multiples of 1/2, which are
    exact in binary floating point, so rational arithmetic agrees with the
    float arithmetic of the source).
  - pygame colliderect is a strict overlap test: touching edges do not
    collide, zero-area rectangles never collide.
  - Python floor division (the // operator) is Int.fdiv; Python int() of a
    float is truncation toward zero (pyTrunc below).
  - The pseudo-random source of game_final (the Python random module,
    reseeded with a known seed before each batch of calls) is abstracted as
    a deterministic function of (seed, call index); every theorem about it
    holds for all such functions.
-/

namespace Platformer

/-- Python int() conversion of an exact rational: truncation toward zero. -/
def pyTrunc (q : ℚ) : ℤ := if q < 0 then ⌈q⌉ else ⌊q⌋

/-- Python abs on an exact rational. -/
def absQ (q : ℚ) : ℚ := if q < 0 then -q else q

/-- A pygame.Rect: integer top-left corner plus nonnegative size. -/
structure Rect where
  x : ℤ
  y : ℤ
  w : ℕ
  h : ℕ
deriving DecidableEq, Inhabited

/-- pygame Rect.right. -/
def Rect.right (r : Rect) : ℤ := r.x + r.w

/-- pygame Rect.bottom. -/
def Rect.bottom (r : Rect) : ℤ := r.y + r.h

/-- pygame Rect.centerx, which is x + w // 2. -/
def Rect.centerx (r : Rect) : ℤ := r.x + (r.w / 2 : ℕ)

/-- pygame Rect.colliderect: strict overlap on both axes (touching edges do
not count, zero-size rectangles never collide). -/
def collide (a b : Rect) : Bool :=
  decide (a.x < b.right ∧ b.x < a.right ∧ a.y < b.bottom ∧ b.y < a.bottom)

/-- The statement rect.y += v of the sources, for an integer rect and a float
velocity: the new y is the Python int() of y + v. -/
def translateY (y : ℤ) (v : ℚ) : ℤ := pyTrunc ((y : ℤ) + v)

/-- Gravity step shared by main.py lines 53-55, game_full.py lines 117-119 and
game_ultra.py lines 84-86: vy += 0.5, capped at terminal velocity 10. -/
def gravity05 (v : ℚ) : ℚ := if 10 < v + 1/2 then 10 else v + 1/2

/-- A physics body of main.py / game_ultra.py: integer rect, float vertical
velocity, grounded flag. -/
structure Body where
  rect : Rect
  vy : ℚ
  onGround : Bool
deriving DecidableEq

/-- The per-platform body of the vertical collision loop of main.py lines
69-77 (identical in game_ultra.py lines 123-136): if the (already
translated) body overlaps the platform, a positive velocity clamps the
bottom of the body to the top of the platform, zeroes the velocity and sets
the grounded flag; a negative velocity clamps the top of the body to the
bottom of the platform and zeroes the velocity. -/
def resolveVert1 (b : Body) (p : Rect) : Body :=
  if collide b.rect p then
    if 0 < b.vy then
      { rect := { b.rect with y := p.y - b.rect.h }, vy := 0, onGround := true }
    else if b.vy < 0 then
      { rect := { b.rect with y := p.bottom }, vy := 0, onGround := b.onGround }
    else b
  else b

/-- Vertical translation of main.py line 67-68 (game_ultra.py lines 117-120):
rect.y += vy, then on_ground is reset to false before resolution. -/
def translateBody (b : Body) : Body :=
  { rect := { b.rect with y := translateY b.rect.y b.vy }, vy := b.vy, onGround := false }

/-- The vertical movement-and-collision pass of main.py lines 67-77: translate
the body by its vertical velocity, reset the grounded flag, then resolve
against every platform in iteration order. -/
def vertPass (platforms : List Rect) (b : Body) : Body :=
  platforms.foldl resolveVert1 (translateBody b)

/-- Horizontal movement-and-collision of game_ultra.py lines 103-111:
rect.x += dx, then for each platform that now overlaps, clamp the leading
edge of the body to the facing edge of the platform. -/
def horizPass (platforms : List Rect) (dx : ℚ) (r : Rect) : Rect :=
  platforms.foldl
    (fun rr p =>
      if collide rr p then
        if 0 < dx then { rr with x := p.x - rr.w }
        else if dx < 0 then { rr with x := p.right }
        else rr
      else rr)
    { r with x := pyTrunc ((r.x : ℤ) + dx) }

/-- The sticking pass of game_ultra.py lines 143-152 (identical logic in
game_final.py lines 308-316): if the first pass did not ground the body and
the vertical velocity is within 1e-3 of zero, snap the body onto the first
platform that overlaps horizontally and whose top is at most 3 units below
the feet of the body. -/
def stickPass (platforms : List Rect) (b : Body) : Body :=
  if b.onGround = false ∧ absQ b.vy < 1/1000 then
    match platforms.find? (fun p =>
        decide (p.x < b.rect.right ∧ b.rect.x < p.right ∧
          0 ≤ p.y - b.rect.bottom ∧ p.y - b.rect.bottom ≤ 3)) with
    | some p => { b with rect := { b.rect with y := p.y - b.rect.h }, onGround := true }
    | none => b
  else b

/-- Player.update of game_ultra.py lines 87-152 (physics only; the frame
animation bookkeeping is presentation-only and omitted): horizontal motion
with collisions, gravity, vertical motion with collisions, sticking pass. -/
def ultraUpdate (platforms : List Rect) (dx : ℚ) (b : Body) : Body :=
  let r1 := horizPass platforms dx b.rect
  let b1 := vertPass platforms { rect := r1, vy := gravity05 b.vy, onGround := b.onGround }
  stickPass platforms b1

/-- Coin collection loop of game_full.py lines 343-347 (game_ultra.py lines
329-333): iterate over a copy of the live coin list; every coin whose rect
overlaps the player is removed from the live list and the score increments
by one. -/
def collectCoins (p : Rect) : List Rect → ℤ → List Rect × ℤ
  | [], s => ([], s)
  | c :: cs, s =>
    if collide p c then collectCoins p cs (s + 1)
    else
      let r := collectCoins p cs s
      (c :: r.1, r.2)

/-- A multi-frame run of the coin collection loop: the player rect of each
successive frame is applied to the surviving coin list. -/
def collectRun (ps : List Rect) (coins : List Rect) (s : ℤ) : List Rect × ℤ :=
  ps.foldl (fun st q => collectCoins q st.1 st.2) (coins, s)

/-- A patrolling enemy of game_full.py (Enemy, lines 177-195): x position,
patrol bounds, signed speed. -/
structure EnemyP where
  x : ℤ
  minX : ℤ
  maxX : ℤ
  speed : ℤ
deriving DecidableEq

/-- Enemy.update of game_full.py lines 190-195 (game_ultra.py lines 217-221):
advance by the signed speed; if the new position lies outside the patrol
bounds, negate the speed and clamp the position back inside. -/
def patrolStep (e : EnemyP) : EnemyP :=
  if e.x + e.speed < e.minX ∨ e.maxX < e.x + e.speed then
    { e with x := max (min (e.x + e.speed) e.maxX) e.minX, speed := -e.speed }
  else { e with x := e.x + e.speed }

/-- Asset dimensions consumed by generate_levels of game_full.py; these come
from image files that are external collaborators, so they are parameters. -/
structure FullParams where
  screenH : ℤ
  platW : ℤ
  platH : ℤ
  coinW : ℤ
  coinH : ℤ
  enemyW : ℤ
deriving DecidableEq

/-- One generated level of game_full.py: platform origins, coin origins,
enemy origin-and-bounds tuples, world length. -/
structure LevelData where
  platforms : List (ℤ × ℤ)
  coins : List (ℤ × ℤ)
  enemies : List (ℤ × ℤ × ℤ × ℤ)
  length : ℤ
deriving DecidableEq

/-- The body of the level loop of generate_levels, game_full.py lines 215-244:
the level of index i has length 1400 + 300i, platforms at
x = 100 + j*step, y = base - (j mod 5)*40, a coin over every second
platform and an enemy on every third platform (j mod 3 = 1), with patrol
bounds equal to the platform span minus the enemy width. -/
def levelGen (P : FullParams) (i : ℕ) : LevelData :=
  let len : ℤ := 1400 + 300 * (i : ℤ)
  let baseY : ℤ := P.screenH - P.platH - 40
  let num : ℕ := 8 + i / 2
  let step : ℤ := max 220 (Int.fdiv (len - 200) (num : ℤ))
  let px : ℕ → ℤ := fun j => 100 + (j : ℤ) * step
  let py : ℕ → ℤ := fun j => baseY - ((j % 5 : ℕ) : ℤ) * 40
  { platforms := (List.range num).map (fun j => (px j, py j)),
    coins := ((List.range num).filter (fun j => j % 2 == 0)).map (fun j =>
      (px j + Int.fdiv (P.platW - P.coinW) 2, py j - P.coinH - 10)),
    enemies := ((List.range num).filter (fun j => j % 3 == 1)).map (fun j =>
      (px j + Int.fdiv (P.platW - P.enemyW) 2, py j, px j, px j + P.platW - P.enemyW)),
    length := len }

/-- generate_levels of game_full.py lines 203-245: one LevelData per index in
range. -/
def generateLevels (P : FullParams) (n : ℕ) : List LevelData :=
  (List.range n).map (levelGen P)

/-- The sampled input snapshot consumed by game_final.py: held movement keys,
jump, attack (the F key) and the restart key (the R key of the game-over and
win screens). -/
structure Input where
  left : Bool
  right : Bool
  jump : Bool
  attack : Bool
  restart : Bool
deriving DecidableEq

/-- The Player state of game_final.py (class Player, lines 167-198): rect,
velocities, grounded flag, facing direction, attack state, lives and score. -/
structure PlayerF where
  rect : Rect
  velX : ℤ
  velY : ℚ
  onGround : Bool
  dir : ℤ
  attacking : Bool
  attackTimer : ℤ
  lives : ℤ
  score : ℤ
deriving DecidableEq

/-- Player.handle_input of game_final.py lines 200-218.  The whole body is
guarded by the attacking flag: while attacking, no input is processed at all
(so the previously set horizontal velocity persists).  Otherwise the
horizontal velocity is recomputed from the held keys (right wins over left
when both are held, matching the statement order of the source), a jump is
granted only when grounded, and the attack key starts an attack of 15 frames
(ATTACK_DURATION). -/
def handleInput (k : Input) (pl : PlayerF) : PlayerF :=
  if pl.attacking then pl
  else
    let a := { pl with velX := 0 }
    let b := if k.left then { a with velX := -5, dir := -1 } else a
    let c := if k.right then { b with velX := 5, dir := 1 } else b
    let d := if k.jump && c.onGround then { c with velY := -16, onGround := false } else c
    if k.attack then { d with attacking := true, attackTimer := 15 } else d

/-- The attack-timer update of Player.update, game_final.py lines 254-258:
while attacking, the timer decrements by one, and the attacking flag is
cleared when the timer reaches zero or below. -/
def tickAttack (pl : PlayerF) : PlayerF :=
  if pl.attacking then
    let t := pl.attackTimer - 1
    if t ≤ 0 then { pl with attackTimer := t, attacking := false }
    else { pl with attackTimer := t }
  else pl

/-- An enemy of game_final.py (class Enemy, lines 123-164): rect and signed
direction; the speed constant is ENEMY_SPEED = 2. -/
structure EnemyF where
  rect : Rect
  dir : ℤ
deriving DecidableEq

/-- The enemy-contact block of Player.update, game_final.py lines 239-252:
the list of overlapping enemies is computed first (pygame spritecollide);
if the player is attacking, every overlapping enemy is killed and the player
is untouched; otherwise the first overlapping enemy costs one life, the
player is knocked back 20 units opposite its facing direction, the vertical
velocity is zeroed and the grounded flag cleared, and the loop breaks. -/
def enemyContact (pl : PlayerF) (enemies : List EnemyF) : PlayerF × List EnemyF :=
  let hits := enemies.filter (fun e => collide pl.rect e.rect)
  if pl.attacking then
    (pl, enemies.filter (fun e => !collide pl.rect e.rect))
  else if hits.isEmpty then (pl, enemies)
  else
    ({ pl with
        lives := pl.lives - 1,
        rect := { pl.rect with x := pl.rect.x - pl.dir * 20 },
        velY := 0, onGround := false }, enemies)

/-- Player.handle_horizontal_collisions of game_final.py lines 263-270,
together with the preceding rect.x += vel_x of line 226: the overlap list is
computed once against the moved rect, then each overlapping platform clamps
the leading edge of the body. -/
def horizMoveF (platforms : List Rect) (pl : PlayerF) : PlayerF :=
  let moved := { pl.rect with x := pl.rect.x + pl.velX }
  let hits := platforms.filter (fun p => collide moved p)
  let clamped := hits.foldl
    (fun r p =>
      if 0 < pl.velX then { r with x := p.x - r.w }
      else if pl.velX < 0 then { r with x := p.right }
      else r)
    moved
  { pl with rect := clamped }

/-- Player.handle_vertical_collisions of game_final.py lines 272-316, with
the preceding rect.y += vel_y of line 230: the grounded flag is reset, the
overlap list is computed once against the moved rect, each overlapping
platform is resolved using the vertical velocity current at that point of
the loop (so after the first landing the velocity is zero and later entries
do nothing), and finally the sticking pass runs when the body was not
grounded and the velocity is within 1e-3 of zero. -/
def vertMoveF (platforms : List Rect) (pl : PlayerF) : PlayerF :=
  let moved := { pl.rect with y := translateY pl.rect.y pl.velY }
  let hits := platforms.filter (fun p => collide moved p)
  let st := hits.foldl
    (fun (s : Rect × ℚ × Bool) p =>
      if 0 < s.2.1 then ({ s.1 with y := p.y - s.1.h }, 0, true)
      else if s.2.1 < 0 then ({ s.1 with y := p.bottom }, 0, s.2.2)
      else s)
    (moved, pl.velY, false)
  let b := { pl with rect := st.1, velY := st.2.1, onGround := st.2.2 }
  if b.onGround = false ∧ absQ b.velY < 1/1000 then
    match platforms.find? (fun p =>
        decide (p.x < b.rect.right ∧ b.rect.x < p.right ∧
          0 ≤ p.y - b.rect.bottom ∧ p.y - b.rect.bottom ≤ 3)) with
    | some p => { b with rect := { b.rect with y := p.y - b.rect.h }, onGround := true }
    | none => b
  else b

/-- Player.update of game_final.py lines 220-261 (animation omitted): gravity
(GRAVITY = 0.8, no terminal cap), horizontal motion and collisions, vertical
motion and collisions, coin collection (score += number of overlapped coins,
which are removed), enemy contact, attack timer. -/
def updatePlayerF (platforms : List Rect) (coins : List Rect) (enemies : List EnemyF)
    (pl : PlayerF) : PlayerF × List Rect × List EnemyF :=
  let p1 := { pl with velY := pl.velY + 4/5 }
  let p2 := horizMoveF platforms p1
  let p3 := vertMoveF platforms p2
  let hits := coins.filter (fun c => collide p3.rect c)
  let p4 := { p3 with score := p3.score + hits.length }
  let coins1 := coins.filter (fun c => !collide p4.rect c)
  let pe := enemyContact p4 enemies
  (tickAttack pe.1, coins1, pe.2)

/-- Enemy.update of game_final.py lines 137-164: advance by direction times
speed (2); probe 5 units below for a supporting platform; with no support,
reverse direction and step away from the edge by twice the speed; finally
apply the camera shift to the stored rect. -/
def enemyStepF (platforms : List Rect) (cameraDx : ℤ) (e : EnemyF) : EnemyF :=
  let r1 := { e.rect with x := e.rect.x + e.dir * 2 }
  let below := { r1 with y := r1.y + 5 }
  let onPlat := platforms.any (fun p => collide below p)
  let stepped : Rect × ℤ :=
    if onPlat then (r1, e.dir)
    else ({ r1 with x := r1.x + (-e.dir) * 2 * 2 }, -e.dir)
  { rect := { stepped.1 with x := stepped.1.x - cameraDx }, dir := stepped.2 }

/-- The camera-offset computation of Game.run, game_final.py lines 560-563:
the player center minus half the viewport (SCREEN_WIDTH = 1000), clamped by
max(0, min(target, worldWidth - SCREEN_WIDTH)). -/
def cameraX (centerx worldWidth : ℤ) : ℤ :=
  max 0 (min (centerx - 500) (worldWidth - 1000))

/-- Asset dimensions of game_final.py (sizes of platform.png, the coin
frames, enemy.png); external collaborator data, hence parameters. -/
structure Assets where
  platW : ℕ
  platH : ℕ
  coinW : ℕ
  coinH : ℕ
  enemyW : ℕ
  enemyH : ℕ
deriving DecidableEq

/-- Abstraction of the reseeded pseudo-random source of game_final.py: after
random.seed(s), the n-th draw is a deterministic function of (s, n).
randint s n lo hi models random.randint(lo, hi); choiceIdx s n m models the
index drawn by random.choice from a list of length m (the result is used
modulo the list length, so any function is a valid instance). -/
structure Rng where
  randint : ℕ → ℕ → ℤ → ℤ → ℤ
  choiceIdx : ℕ → ℕ → ℕ → ℕ

/-- Game.generate_levels of game_final.py lines 401-419, for one index i:
the ground platform origin (0, SCREEN_HEIGHT - 40) followed by
8 + i // 2 platforms at x = randint(50, width - 200),
y = randint(200, SCREEN_HEIGHT - 150), where width = 2000 + 400 i and the
random source was reseeded with i. -/
def levelsF (R : Rng) (i : ℕ) : List (ℤ × ℤ) :=
  ((0 : ℤ), (560 : ℤ)) :: (List.range (8 + i / 2)).map (fun p =>
    (R.randint i (2 * p) 50 (2000 + 400 * (i : ℤ) - 200),
     R.randint i (2 * p + 1) 200 450))

/-- The world width of Game.load_level, game_final.py line 434: the largest
platform x of the level data plus 500 (the list always contains the ground
origin x = 0, so folding max from 0 is the Python max of the list). -/
def worldWidthF (R : Rng) (i : ℕ) : ℤ :=
  ((levelsF R i).map Prod.fst).foldl max 0 + 500

/-- The platform spawning of Game.load_level, game_final.py lines 445-456:
a ground entry (y at least SCREEN_HEIGHT - 40 = 560) is tiled across the
world width at the platform-image width; every other entry becomes a single
platform. -/
def levelPlatformsF (A : Assets) (R : Rng) (i : ℕ) : List Rect :=
  (levelsF R i).flatMap (fun xy =>
    if 560 ≤ xy.2 then
      (List.range (((worldWidthF R i).toNat + A.platW - 1) / A.platW)).map
        (fun t => ⟨(t * A.platW : ℕ), xy.2, A.platW, A.platH⟩)
    else [⟨xy.1, xy.2, A.platW, A.platH⟩])

/-- The non-ground platform list of Game.load_level, game_final.py line 460:
platforms whose y is above SCREEN_HEIGHT - 50 = 550. -/
def platformListF (A : Assets) (R : Rng) (i : ℕ) : List Rect :=
  (levelPlatformsF A R i).filter (fun p => decide (p.y < 550))

/-- The coin spawning of Game.load_level, game_final.py lines 458-468:
min(6 + i // 2, number of candidate platforms) coins, each placed with its
midbottom on the top center of a platform chosen by the random source
reseeded with i + 100. -/
def levelCoinsF (A : Assets) (R : Rng) (i : ℕ) : List Rect :=
  let pls := platformListF A R i
  (List.range (min (6 + i / 2) pls.length)).map (fun k =>
    let plat := pls.getD (R.choiceIdx (i + 100) k pls.length % pls.length) default
    ⟨plat.centerx - (A.coinW / 2 : ℕ), plat.y - A.coinH, A.coinW, A.coinH⟩)

/-- The enemy spawning of Game.load_level, game_final.py lines 470-479 with
Enemy.init lines 126-135: min(3 + i // 3, number of candidate platforms)
enemies, each with its midbottom on the top center of a platform chosen by
the random source reseeded with i + 200, and a direction drawn from
{-1, 1}. -/
def levelEnemiesF (A : Assets) (R : Rng) (i : ℕ) : List EnemyF :=
  let pls := platformListF A R i
  (List.range (min (3 + i / 3) pls.length)).map (fun k =>
    let plat := pls.getD (R.choiceIdx (i + 200) (2 * k) pls.length % pls.length) default
    { rect := ⟨plat.centerx - (A.enemyW / 2 : ℕ), plat.y - A.enemyH, A.enemyW, A.enemyH⟩,
      dir := if R.choiceIdx (i + 200) (2 * k + 1) 2 = 0 then -1 else 1 })

/-- Stable insertion of a rect into a list sorted by the key (y, x). -/
def sortInsertYX (p : Rect) : List Rect → List Rect
  | [] => [p]
  | q :: qs =>
    if q.y < p.y ∨ (q.y = p.y ∧ q.x ≤ p.x) then q :: sortInsertYX p qs
    else p :: q :: qs

/-- The Python sort by key (rect.y, rect.x) of Game.load_level, game_final.py
line 484. -/
def sortYX : List Rect → List Rect
  | [] => []
  | p :: ps => sortInsertYX p (sortYX ps)

/-- The player placement of Game.load_level, game_final.py lines 481-490:
midbottom on the topmost-leftmost candidate platform at x + 20 with the
vertical velocity zeroed, or the fixed default spawn (50, 550) when no
candidate platform exists. -/
def spawnPlayerF (A : Assets) (R : Rng) (i : ℕ) (pl : PlayerF) : PlayerF :=
  match sortYX (platformListF A R i) with
  | plat :: _ =>
    { pl with
        rect := { pl.rect with x := plat.x + 20 - (pl.rect.w / 2 : ℕ), y := plat.y - pl.rect.h },
        velY := 0 }
  | [] =>
    { pl with rect := { pl.rect with x := 50 - (pl.rect.w / 2 : ℕ), y := 550 - pl.rect.h } }

/-- The whole game state of game_final.py (class Game). -/
structure GState where
  levelIndex : ℕ
  player : PlayerF
  platforms : List Rect
  coins : List Rect
  enemies : List EnemyF
  worldWidth : ℤ
  lastCameraX : ℤ
  gameOver : Bool
  gameWon : Bool

/-- Game.load_level of game_final.py lines 421-496: rebuild the platform,
coin and enemy sets from the level data, place the player, and reset score,
lives and the terminal flags. -/
def loadLevel (A : Assets) (R : Rng) (i : ℕ) (s : GState) : GState :=
  { s with
    platforms := levelPlatformsF A R i,
    coins := levelCoinsF A R i,
    enemies := levelEnemiesF A R i,
    worldWidth := worldWidthF R i,
    player := { spawnPlayerF A R i s.player with score := 0, lives := 3 },
    gameOver := false,
    gameWon := false }

/-- The fall-off check of Game.run, game_final.py lines 590-601: when the
player top passes the bottom of the screen, lose a life, respawn on the
first candidate platform (velocity zeroed, grounded set), and enter the
game-over state when no lives remain. -/
def fallCheck (s : GState) : GState :=
  if 600 < s.player.rect.y then
    let pl0 := { s.player with lives := s.player.lives - 1 }
    let pl1 :=
      match s.platforms.filter (fun p => decide (p.y < 550)) with
      | plat :: _ =>
        { pl0 with
            rect := { pl0.rect with x := plat.x + 20 - (pl0.rect.w / 2 : ℕ),
                                    y := plat.y - pl0.rect.h },
            velY := 0, onGround := true }
      | [] => pl0
    { s with player := pl1, gameOver := if pl1.lives ≤ 0 then true else s.gameOver }
  else s

/-- One active frame of Game.run, game_final.py lines 554-601: process input,
compute the camera offset and its delta, update the player (physics,
collisions, coins, enemies, attack timer), move the enemies, shift the
platform and coin rects by the camera delta, then either advance the level
when all coins are collected (winning past the last level) or run the
fall-off check. -/
def playFrame (A : Assets) (R : Rng) (k : Input) (s : GState) : GState :=
  let pl0 := handleInput k s.player
  let camX := cameraX pl0.rect.centerx s.worldWidth
  let camDx := camX - s.lastCameraX
  let upd := updatePlayerF s.platforms s.coins s.enemies pl0
  let enemies2 := upd.2.2.map (enemyStepF s.platforms camDx)
  let platforms2 := s.platforms.map (fun p => { p with x := p.x - camDx })
  let coins2 := upd.2.1.map (fun c => { c with x := c.x - camDx })
  let s1 := { s with player := upd.1, platforms := platforms2, coins := coins2,
                     enemies := enemies2, lastCameraX := camX }
  if coins2.isEmpty && !s1.gameOver then
    let li := s1.levelIndex + 1
    if 30 ≤ li then fallCheck { s1 with levelIndex := li, gameWon := true }
    else loadLevel A R li { s1 with levelIndex := li }
  else fallCheck s1

/-- One frame of the game_final.py main loop (Game.run lines 545-643 with
Game.handle_game_over lines 498-520 and Game.handle_win lines 522-543):
in a terminal state no simulation runs; the R key restarts from level 0;
otherwise the active frame runs. -/
def gameFrame (A : Assets) (R : Rng) (k : Input) (s : GState) : GState :=
  if s.gameOver || s.gameWon then
    if k.restart then loadLevel A R 0 { s with levelIndex := 0 }
    else s
  else playFrame A R k s

/-- A wide platform with top edge at y = 560, the ground of the end-to-end
scenario of the spec (one platform at (0, 560) of width 1000). -/
def restPlatform : Rect := ⟨0, 560, 1000, 40⟩

/-- A 40 by 60 body standing exactly on restPlatform: bottom = 560, zero
vertical velocity, grounded. -/
def restBody : Body := ⟨⟨100, 500, 40, 60⟩, 0, true⟩

/-- A 40 by 60 body falling with velocity 4 from y = 505; after translation
it overlaps restPlatform. -/
def fallBody : Body := ⟨⟨100, 505, 40, 60⟩, 4, false⟩

/-- A platform with top at 500, listed first in the sample platform list. -/
def cexPlatformA : Rect := ⟨0, 500, 1000, 40⟩

/-- A platform with top at 490, listed second in the sample platform list;
a body clamped onto cexPlatformA still overlaps it. -/
def cexPlatformB : Rect := ⟨0, 490, 1000, 60⟩

/-- A 40 by 60 body falling with velocity 4 from y = 441; after translation
(y = 445, bottom = 505) it overlaps both cexPlatformA and cexPlatformB. -/
def cexFallingBody : Body := ⟨⟨100, 441, 40, 60⟩, 4, false⟩

/-- A game_final player standing at x = 100 facing right, not attacking. -/
def cexPlayerF : PlayerF :=
  { rect := ⟨100, 0, 40, 60⟩, velX := 0, velY := 0, onGround := true, dir := 1,
    attacking := false, attackTimer := 0, lives := 3, score := 0 }

/-- A game_final enemy overlapping cexPlayerF from the left. -/
def cexEnemyF : EnemyF := ⟨⟨70, 0, 40, 60⟩, 1⟩

/-- An input snapshot holding the right-movement key and the attack key. -/
def rightAttackInput : Input :=
  { left := false, right := true, jump := false, attack := true, restart := false }

/-- An idle grounded game_final player used as a starting state. -/
def idlePlayerF : PlayerF :=
  { rect := ⟨100, 440, 40, 60⟩, velX := 0, velY := 0, onGround := true, dir := 1,
    attacking := false, attackTimer := 0, lives := 3, score := 0 }

/-- Sample asset dimensions for witnesses (any positive sizes work). -/
def sampleAssets : Assets := ⟨40, 20, 24, 24, 30, 30⟩

/-- Sample deterministic random source for witnesses: randint returns its
lower bound, choice always picks index 0. -/
def sampleRng : Rng := ⟨fun _ _ lo _ => lo, fun _ _ _ => 0⟩

/-- Sample asset dimensions for the game_full generator. -/
def sampleFullParams : FullParams := ⟨600, 200, 40, 24, 24, 30⟩

/-- A terminal (game over) game_final state used as a witness input. -/
def terminalState : GState :=
  { levelIndex := 3, player := idlePlayerF, platforms := [restPlatform],
    coins := [], enemies := [], worldWidth := 2000, lastCameraX := 0,
    gameOver := true, gameWon := false }

/-- An input snapshot holding only the restart key. -/
def restartInput : Input :=
  { left := false, right := false, jump := false, attack := false, restart := true }

/-- An empty input snapshot. -/
def noInput : Input :=
  { left := false, right := false, jump := false, attack := false, restart := false }

/-- A sample patrolling enemy inside its bounds. -/
def sampleEnemyP : EnemyP := ⟨100, 50, 300, 2⟩

end Platformer

namespace Platformer

theorem pyTrunc_eq_floor (q : ℚ) (h : 0 ≤ q) : pyTrunc q = ⌊q⌋ := by
  unfold pyTrunc
  rw [if_neg (not_lt.mpr h)]

theorem translateY_fraction (y : ℤ) (v : ℚ) (hy : 0 ≤ y) (h0 : 0 < v) (h1 : v < 1) :
    translateY y v = y := by
  unfold translateY
  rw [pyTrunc_eq_floor _ (by positivity), Int.floor_int_add,
    Int.floor_eq_zero_iff.mpr ⟨h0.le, h1⟩, add_zero]

theorem resolveVert1_no_collide (b : Body) (p : Rect) (h : collide b.rect p = false) :
    resolveVert1 b p = b := by
  simp [resolveVert1, h]

theorem resolveVert1_vy_zero (b : Body) (p : Rect) (h : b.vy = 0) :
    resolveVert1 b p = b := by
  simp [resolveVert1, h]

theorem foldl_resolveVert1_vy_zero (l : List Rect) (b : Body) (h : b.vy = 0) :
    l.foldl resolveVert1 b = b := by
  induction l with
  | nil => rfl
  | cons p l ih => rw [List.foldl_cons, resolveVert1_vy_zero b p h, ih]

theorem foldl_resolveVert1_skip (l : List Rect) (b : Body)
    (h : ∀ q ∈ l, collide b.rect q = false) :
    l.foldl resolveVert1 b = b := by
  induction l with
  | nil => rfl
  | cons p l ih =>
    rw [List.foldl_cons, resolveVert1_no_collide b p (h p (List.mem_cons_self p l))]
    exact ih (fun q hq => h q (List.mem_cons_of_mem p hq))

/-- C1: for a body with strictly positive vertical velocity, if P is the
first platform in iteration order that the translated body overlaps, the
vertical pass of main.py leaves the body with its bottom on the top of P,
zero vertical velocity, and the grounded flag set (once the velocity is
zeroed by the clamp, every later platform of the list leaves the body
unchanged). -/
theorem vertPass_falling_first_overlap (l₁ l₂ : List Rect) (p : Rect) (b : Body)
    (hv : 0 < b.vy)
    (h₁ : ∀ q ∈ l₁, collide (translateBody b).rect q = false)
    (hp : collide (translateBody b).rect p = true) :
    (vertPass (l₁ ++ p :: l₂) b).rect.bottom = p.y ∧
    (vertPass (l₁ ++ p :: l₂) b).vy = 0 ∧
    (vertPass (l₁ ++ p :: l₂) b).onGround = true := by
  have hvb : (0 : ℚ) < (translateBody b).vy := hv
  have hres : resolveVert1 (translateBody b) p =
      { rect := { (translateBody b).rect with y := p.y - (translateBody b).rect.h },
        vy := 0, onGround := true } := by
    simp [resolveVert1, hp, hvb]
  rw [vertPass, List.foldl_append, foldl_resolveVert1_skip _ _ h₁, List.foldl_cons, hres,
    foldl_resolveVert1_vy_zero _ _ rfl]
  refine ⟨?_, rfl, rfl⟩
  simp [Rect.bottom]

/-- C1 witness: the end-to-end scenario of the spec with a single ground
platform; the falling body is clamped onto it. -/
theorem vertPass_falling_first_overlap_witness :
    (vertPass [restPlatform] fallBody).rect.bottom = restPlatform.y ∧
    (vertPass [restPlatform] fallBody).vy = 0 ∧
    (vertPass [restPlatform] fallBody).onGround = true := by
  have h := vertPass_falling_first_overlap [] [] restPlatform fallBody
    (by norm_num [fallBody])
    (by simp)
    (by norm_num [fallBody, restPlatform, translateBody, translateY, pyTrunc, collide,
      Rect.right, Rect.bottom])
  simpa using h

/-- C1 counterexample: the claim quantifies over every platform that the
translated body overlaps, but with two overlapping platforms of different
tops the body is clamped to the first one only; its bottom does not equal
the top of the second overlapping platform. -/
theorem vertPass_multi_overlap_counterexample :
    0 < cexFallingBody.vy ∧
    collide (translateBody cexFallingBody).rect cexPlatformA = true ∧
    collide (translateBody cexFallingBody).rect cexPlatformB = true ∧
    (vertPass [cexPlatformA, cexPlatformB] cexFallingBody).rect.bottom ≠ cexPlatformB.y := by
  norm_num [cexFallingBody, cexPlatformA, cexPlatformB, vertPass, translateBody, translateY,
    pyTrunc, collide, Rect.right, Rect.bottom, resolveVert1]

/-- C10: positions are integer rectangles and the per-frame vertical
translation truncates: for a body at nonnegative y, a vertical velocity
strictly between 0 and 1 leaves the vertical coordinate unchanged, and
displacement occurs once the accumulated velocity reaches one whole unit. -/
theorem translateY_truncates_fractional (y : ℤ) (v : ℚ) (hy : 0 ≤ y) :
    (0 < v → v < 1 → translateY y v = y) ∧ (1 ≤ v → y < translateY y v) := by
  constructor
  · exact fun h0 h1 => translateY_fraction y v hy h0 h1
  · intro h1
    unfold translateY
    rw [pyTrunc_eq_floor _ (by positivity), Int.floor_int_add]
    have : 1 ≤ ⌊v⌋ := Int.le_floor.mpr (by exact_mod_cast h1)
    omega

/-- C10 witness: the first frame of free fall of main.py, where one gravity
step turns a zero velocity into 0.5, does not move the body at y = 440. -/
theorem translateY_truncates_fractional_witness :
    0 < gravity05 0 ∧ gravity05 0 < 1 ∧ translateY 440 (gravity05 0) = 440 := by
  have hg : gravity05 0 = 1/2 := by norm_num [gravity05]
  have h := translateY_truncates_fractional 440 (gravity05 0) (by norm_num)
  exact ⟨by rw [hg]; norm_num, by rw [hg]; norm_num,
    h.1 (by rw [hg]; norm_num) (by rw [hg]; norm_num)⟩

/-- C2: the code contradicts the claimed consequence.  A body at rest on a
platform (zero velocity, bottom on the platform top, grounded) is no longer
grounded after one frame of the game_ultra update with no input: gravity
raises the velocity to 0.5 before the sticking check, 0.5 is far above the
1e-3 epsilon, and integer truncation leaves the rect in place so no overlap
occurs either. -/
theorem restingBody_loses_ground :
    restBody.vy = 0 ∧ restBody.onGround = true ∧ restBody.rect.bottom = restPlatform.y ∧
    (ultraUpdate [restPlatform] 0 restBody).onGround = false ∧
    (ultraUpdate [restPlatform] 0 restBody).vy = 1/2 ∧
    (ultraUpdate [restPlatform] 0 restBody).rect = restBody.rect := by
  norm_num [restBody, restPlatform, ultraUpdate, horizPass, vertPass, translateBody,
    translateY, pyTrunc, gravity05, stickPass, absQ, collide, resolveVert1, Rect.bottom,
    Rect.right]

/-- C3: the camera offset of game_final equals the player center minus half
the viewport clamped into the interval from 0 to max 0 (world - viewport);
it always lies in that interval, is 0 when the player center is at or left
of the viewport midpoint, and is world - viewport when the player center is
at or past the right edge region. -/
theorem cameraX_clamped (r : Rect) (w : ℤ) :
    (0 ≤ cameraX r.centerx w ∧ cameraX r.centerx w ≤ max 0 (w - 1000)) ∧
    cameraX r.centerx w = min (max (r.centerx - 500) 0) (max 0 (w - 1000)) ∧
    (r.centerx ≤ 500 → cameraX r.centerx w = 0) ∧
    (1000 ≤ w → w - 500 ≤ r.centerx → cameraX r.centerx w = w - 1000) := by
  unfold cameraX
  omega

/-- C3 witness: a player of width 40 at x = 480 has center 500; with a world
of exactly the viewport width both boundary cases of the theorem fire. -/
theorem cameraX_clamped_witness :
    cameraX (Rect.centerx ⟨480, 0, 40, 60⟩) 1000 = 0 ∧
    cameraX (Rect.centerx ⟨480, 0, 40, 60⟩) 1000 = 1000 - 1000 := by
  have h := cameraX_clamped ⟨480, 0, 40, 60⟩ 1000
  exact ⟨h.2.2.1 (by norm_num [Rect.centerx]),
    h.2.2.2 (by norm_num) (by norm_num [Rect.centerx])⟩

theorem collectCoins_fst (p : Rect) (coins : List Rect) (s : ℤ) :
    (collectCoins p coins s).1 = coins.filter (fun c => !collide p c) := by
  induction coins generalizing s with
  | nil => rfl
  | cons c cs ih =>
    cases h : collide p c with
    | true => simp [collectCoins, h, List.filter_cons, ih]
    | false => simp [collectCoins, h, List.filter_cons, ih]

theorem collectCoins_snd (p : Rect) (coins : List Rect) (s : ℤ) :
    (collectCoins p coins s).2 = s + ((coins.filter (fun c => collide p c)).length : ℤ) := by
  induction coins generalizing s with
  | nil => simp [collectCoins]
  | cons c cs ih =>
    cases h : collide p c with
    | true =>
      rw [show collectCoins p (c :: cs) s = collectCoins p cs (s + 1) by
        simp [collectCoins, h]]
      rw [ih]
      simp [List.filter_cons, h]
      ring
    | false =>
      rw [show (collectCoins p (c :: cs) s).2 = (collectCoins p cs s).2 by
        simp [collectCoins, h]]
      rw [ih]
      simp [List.filter_cons, h]

theorem length_filter_split {α : Type} (l : List α) (f : α → Bool) :
    (l.filter f).length + (l.filter (fun a => !f a)).length = l.length := by
  induction l with
  | nil => rfl
  | cons a l ih =>
    cases h : f a <;> simp [List.filter_cons, h] <;> omega

theorem collectRun_step (q : Rect) (ps : List Rect) (coins : List Rect) (s : ℤ) :
    collectRun (q :: ps) coins s =
      collectRun ps (collectCoins q coins s).1 (collectCoins q coins s).2 := rfl

theorem collectRun_conserve (ps : List Rect) (coins : List Rect) (s : ℤ) :
    (collectRun ps coins s).2 + ((collectRun ps coins s).1.length : ℤ) =
      s + coins.length := by
  induction ps generalizing coins s with
  | nil => simp [collectRun]
  | cons q ps ih =>
    rw [collectRun_step, ih, collectCoins_snd, collectCoins_fst]
    have := length_filter_split coins (fun c => collide q c)
    omega

theorem collectRun_sublist (ps : List Rect) (coins : List Rect) (s : ℤ) :
    (collectRun ps coins s).1.Sublist coins := by
  induction ps generalizing coins s with
  | nil => exact List.Sublist.refl _
  | cons q ps ih =>
    rw [collectRun_step]
    exact (ih _ _).trans (by rw [collectCoins_fst]; exact List.filter_sublist coins)

/-- C4: one frame of the game_full coin loop removes exactly the overlapping
coins from the live list and raises the score by their number; over any run
of frames the score rises by exactly one per coin removed (conservation of
score plus live-coin count) and the surviving list is a sublist of the
original, so a removed coin can never contribute again. -/
theorem coin_collection_exact (p : Rect) (ps : List Rect) (coins : List Rect) (s : ℤ) :
    (collectCoins p coins s).1 = coins.filter (fun c => !collide p c) ∧
    (collectCoins p coins s).2 = s + ((coins.filter (fun c => collide p c)).length : ℤ) ∧
    (collectRun ps coins s).2 + ((collectRun ps coins s).1.length : ℤ) = s + coins.length ∧
    (collectRun ps coins s).1.Sublist coins :=
  ⟨collectCoins_fst p coins s, collectCoins_snd p coins s,
    collectRun_conserve ps coins s, collectRun_sublist ps coins s⟩

theorem patrolStep_preserves (e : EnemyP) (h1 : e.minX ≤ e.x) (h2 : e.x ≤ e.maxX) :
    (patrolStep e).minX = e.minX ∧ (patrolStep e).maxX = e.maxX ∧
    e.minX ≤ (patrolStep e).x ∧ (patrolStep e).x ≤ e.maxX := by
  unfold patrolStep
  by_cases h : e.x + e.speed < e.minX ∨ e.maxX < e.x + e.speed
  · rw [if_pos h]
    exact ⟨rfl, rfl, le_max_right _ _, max_le (min_le_right _ _) (h1.trans h2)⟩
  · rw [if_neg h]
    push_neg at h
    exact ⟨rfl, rfl, h.1, h.2⟩

/-- C7: an enemy that starts inside its patrol bounds stays inside them at
the end of every simulated frame, and a step that would exit the bounds
negates the sign of the speed (the bounds themselves never change). -/
theorem patrol_never_leaves_bounds (e : EnemyP) (h1 : e.minX ≤ e.x) (h2 : e.x ≤ e.maxX) :
    (∀ n : ℕ,
      (patrolStep^[n] e).minX = e.minX ∧ (patrolStep^[n] e).maxX = e.maxX ∧
      e.minX ≤ (patrolStep^[n] e).x ∧ (patrolStep^[n] e).x ≤ e.maxX) ∧
    (e.x + e.speed < e.minX ∨ e.maxX < e.x + e.speed →
      (patrolStep e).speed = -e.speed) := by
  constructor
  · intro n
    induction n with
    | zero => exact ⟨rfl, rfl, h1, h2⟩
    | succ n ih =>
      rw [Function.iterate_succ_apply']
      obtain ⟨hmin, hmax, hl, hr⟩ := ih
      obtain ⟨pmin, pmax, pl, pr⟩ :=
        patrolStep_preserves (patrolStep^[n] e) (hmin ▸ hl) (hmax ▸ hr)
      exact ⟨pmin.trans hmin, pmax.trans hmax, hmin ▸ pl, hmax ▸ pr⟩
  · intro hout
    unfold patrolStep
    rw [if_pos hout]

/-- C7 witness: the sample enemy starting at 100 inside bounds 50 to 300
is still inside after 250 frames. -/
theorem patrol_never_leaves_bounds_witness :
    50 ≤ (patrolStep^[250] sampleEnemyP).x ∧ (patrolStep^[250] sampleEnemyP).x ≤ 300 := by
  have h := patrol_never_leaves_bounds sampleEnemyP
    (by norm_num [sampleEnemyP]) (by norm_num [sampleEnemyP])
  exact ⟨(h.1 250).2.2.1, (h.1 250).2.2.2⟩

/-- C8: the game_full level generator is deterministic in the level index:
the level stored at index i of any generated list (for any requested level
count) is exactly levelGen of i, so two invocations agree on every common
index in all four components. -/
theorem generateLevels_deterministic (P : FullParams) (n m i : ℕ)
    (hn : i < n) (hm : i < m) :
    (generateLevels P n)[i]? = some (levelGen P i) ∧
    (generateLevels P m)[i]? = some (levelGen P i) ∧
    (generateLevels P n)[i]? = (generateLevels P m)[i]? := by
  refine ⟨?_, ?_, ?_⟩ <;>
    simp [generateLevels, List.getElem?_map, List.getElem?_range, hn, hm]

/-- C8 witness: generating 30 levels and 6 levels with the same parameters
yields the same level at index 5. -/
theorem generateLevels_deterministic_witness :
    (generateLevels sampleFullParams 30)[5]? = some (levelGen sampleFullParams 5) ∧
    (generateLevels sampleFullParams 6)[5]? = some (levelGen sampleFullParams 5) ∧
    (generateLevels sampleFullParams 30)[5]? = (generateLevels sampleFullParams 6)[5]? :=
  generateLevels_deterministic sampleFullParams 30 6 5 (by norm_num) (by norm_num)

/-- C5 (amended): on overlap with a live enemy, an attacking player destroys
every overlapping enemy and is itself untouched; a non-attacking player
loses exactly one life, is knocked back 20 units opposite its facing
direction (not necessarily away from the enemy), keeps its vertical
position, and has its vertical velocity zeroed and grounded flag cleared,
while the enemy list is unchanged. -/
theorem enemyContact_characterization (pl : PlayerF) (es : List EnemyF) :
    (pl.attacking = true →
      enemyContact pl es = (pl, es.filter (fun e => !collide pl.rect e.rect))) ∧
    (pl.attacking = false → es.filter (fun e => collide pl.rect e.rect) = [] →
      enemyContact pl es = (pl, es)) ∧
    (pl.attacking = false → es.filter (fun e => collide pl.rect e.rect) ≠ [] →
      (enemyContact pl es).2 = es ∧
      (enemyContact pl es).1.lives = pl.lives - 1 ∧
      (enemyContact pl es).1.rect.x = pl.rect.x - pl.dir * 20 ∧
      (enemyContact pl es).1.rect.y = pl.rect.y ∧
      (enemyContact pl es).1.velY = 0 ∧
      (enemyContact pl es).1.onGround = false ∧
      (enemyContact pl es).1.score = pl.score ∧
      (enemyContact pl es).1.attacking = pl.attacking) := by
  refine ⟨?_, ?_, ?_⟩
  · intro ha
    simp [enemyContact, ha]
  · intro ha he
    simp [enemyContact, ha, he]
  · intro ha he
    simp [enemyContact, ha, List.isEmpty_iff, he]

/-- C5 witness: an attacking player overlapping one enemy destroys it and is
unchanged. -/
theorem enemyContact_characterization_witness :
    enemyContact { cexPlayerF with attacking := true } [cexEnemyF] =
      ({ cexPlayerF with attacking := true }, []) := by
  have h := (enemyContact_characterization { cexPlayerF with attacking := true } [cexEnemyF]).1 rfl
  rw [h]
  norm_num [cexPlayerF, cexEnemyF, collide, Rect.right, Rect.bottom, List.filter]

/-- C5 counterexample: a non-attacking player facing right, overlapped by an
enemy on its left, is knocked 20 units to the left, strictly closer to the
enemy center, so the player is neither displaced away from the enemy nor
reset to a spawn point (the vertical position is untouched). -/
theorem enemyContact_knockback_toward_enemy :
    collide cexPlayerF.rect cexEnemyF.rect = true ∧
    cexPlayerF.attacking = false ∧
    (enemyContact cexPlayerF [cexEnemyF]).1.lives = cexPlayerF.lives - 1 ∧
    (enemyContact cexPlayerF [cexEnemyF]).1.rect.x = cexPlayerF.rect.x - 20 ∧
    (enemyContact cexPlayerF [cexEnemyF]).1.rect.y = cexPlayerF.rect.y ∧
    |(enemyContact cexPlayerF [cexEnemyF]).1.rect.centerx - cexEnemyF.rect.centerx| <
      |cexPlayerF.rect.centerx - cexEnemyF.rect.centerx| := by
  norm_num [enemyContact, cexPlayerF, cexEnemyF, collide, Rect.right, Rect.bottom,
    Rect.centerx, List.filter]

/-- C6 (amended): triggering an attack while not attacking sets the flag and
a 15-frame timer; while attacking the whole input handler is skipped, so a
retrigger is a no-op and the previously set horizontal velocity persists
(the player can keep moving horizontally during the attack); the timer
decrements each frame and the flag is cleared exactly when it reaches
zero. -/
theorem attack_window_characterization (k : Input) (pl : PlayerF) :
    (pl.attacking = false → k.attack = true →
      (handleInput k pl).attacking = true ∧ (handleInput k pl).attackTimer = 15) ∧
    (pl.attacking = true → handleInput k pl = pl) ∧
    (pl.attacking = true →
      (tickAttack pl).attackTimer = pl.attackTimer - 1 ∧
      ((tickAttack pl).attacking = true ↔ 0 < pl.attackTimer - 1)) := by
  refine ⟨?_, ?_, ?_⟩
  · intro ha hk
    simp [handleInput, ha, hk]
  · intro ha
    simp [handleInput, ha]
  · intro ha
    simp only [tickAttack, ha, if_true]
    split_ifs with ht <;> refine ⟨rfl, ?_⟩ <;> simp <;> omega

/-- C6 witness: the three clauses of the theorem at a concrete idle player
and a held right-plus-attack snapshot. -/
theorem attack_window_characterization_witness :
    (handleInput rightAttackInput idlePlayerF).attacking = true ∧
    (handleInput rightAttackInput idlePlayerF).attackTimer = 15 ∧
    handleInput rightAttackInput { idlePlayerF with attacking := true } =
      { idlePlayerF with attacking := true } := by
  have h1 := (attack_window_characterization rightAttackInput idlePlayerF).1 rfl rfl
  have h2 := (attack_window_characterization rightAttackInput
    { idlePlayerF with attacking := true }).2.1 rfl
  exact ⟨h1.1, h1.2, h2⟩

/-- C6 counterexample: after pressing attack while holding right, the player
is attacking with a stale horizontal velocity of 5; the next frame ignores
input but the horizontal move of the update still displaces the player, so
the player does move horizontally from held input while attacking. -/
theorem attack_does_not_stop_motion :
    (handleInput rightAttackInput idlePlayerF).attacking = true ∧
    (handleInput rightAttackInput idlePlayerF).velX = 5 ∧
    handleInput rightAttackInput (handleInput rightAttackInput idlePlayerF) =
      handleInput rightAttackInput idlePlayerF ∧
    (horizMoveF [] (handleInput rightAttackInput idlePlayerF)).rect.x =
      (handleInput rightAttackInput idlePlayerF).rect.x + 5 ∧
    (handleInput rightAttackInput idlePlayerF).rect.x + 5 ≠
      (handleInput rightAttackInput idlePlayerF).rect.x := by
  refine ⟨?_, ?_, ?_, ?_, ?_⟩ <;>
    simp [handleInput, horizMoveF, rightAttackInput, idlePlayerF, List.filter]

/-- C9: while the game_final state is game over or game won, a frame with no
restart key leaves the entire state unchanged (no physics, collision,
patrol or interaction update runs); the restart key resets the level index
to 0, reloads level 0 (platforms, coins, enemies and world width are those
of level 0) and resets lives to 3 and score to 0. -/
theorem terminal_states_frozen (A : Assets) (R : Rng) (k : Input) (s : GState)
    (h : s.gameOver = true ∨ s.gameWon = true) :
    (k.restart = false → gameFrame A R k s = s) ∧
    (k.restart = true →
      (gameFrame A R k s).levelIndex = 0 ∧
      (gameFrame A R k s).player.lives = 3 ∧
      (gameFrame A R k s).player.score = 0 ∧
      (gameFrame A R k s).gameOver = false ∧
      (gameFrame A R k s).gameWon = false ∧
      (gameFrame A R k s).platforms = levelPlatformsF A R 0 ∧
      (gameFrame A R k s).coins = levelCoinsF A R 0 ∧
      (gameFrame A R k s).enemies = levelEnemiesF A R 0 ∧
      (gameFrame A R k s).worldWidth = worldWidthF R 0) := by
  have hb : (s.gameOver || s.gameWon) = true := by
    rcases h with h | h <;> simp [h]
  constructor
  · intro hr
    simp [gameFrame, hb, hr]
  · intro hr
    simp [gameFrame, hb, hr, loadLevel]

/-- C9 witness: a concrete game-over state with sample assets and random
source is frozen by an empty input and reset by the restart key. -/
theorem terminal_states_frozen_witness :
    gameFrame sampleAssets sampleRng noInput terminalState = terminalState ∧
    (gameFrame sampleAssets sampleRng restartInput terminalState).levelIndex = 0 ∧
    (gameFrame sampleAssets sampleRng restartInput terminalState).player.lives = 3 ∧
    (gameFrame sampleAssets sampleRng restartInput terminalState).player.score = 0 := by
  have h1 := terminal_states_frozen sampleAssets sampleRng noInput terminalState (Or.inl rfl)
  have h2 := terminal_states_frozen sampleAssets sampleRng restartInput terminalState (Or.inl rfl)
  exact ⟨h1.1 rfl, (h2.2 rfl).1, (h2.2 rfl).2.1, (h2.2 rfl).2.2.1⟩

end Platformer
